import Mathlib

/-!
Verification of the Mini Data Query Simulation Engine (src/main.py).

Strings are embedded as lists of Unicode code points (`List Nat`); the
function `str` injects Lean string literals into that representation.
Python substring containment (`a in b`) is embedded as `containsSub`,
`str.lower()` as `lower` (ASCII case folding, per character), and
`str.strip()` as `strip`. The HTTP handlers are embedded as total
functions; the exception path of a Python `dict` lookup is an `Option`.
-/

/-- Code-point embedding of a string literal. -/
def str (s : String) : List Nat := s.data.map Char.toNat

/-- Boolean list-prefix test on code points. -/
def isPrefixList : List Nat → List Nat → Bool
  | [], _ => true
  | _ :: _, [] => false
  | a :: as, b :: bs => a == b && isPrefixList as bs

/-- Embedding of the Python substring test needle in hay. -/
def containsSub (needle : List Nat) : List Nat → Bool
  | [] => needle.isEmpty
  | b :: bs => isPrefixList needle (b :: bs) || containsSub needle bs

/-- ASCII case folding of one code point, the per-character action of the
Python lower method on the keywords involved here. -/
def lowerChar (n : Nat) : Nat := if 65 ≤ n ∧ n ≤ 90 then n + 32 else n

/-- Embedding of the Python lower method. -/
def lower (s : List Nat) : List Nat := s.map lowerChar

/-- Code points removed by the Python strip method (space, tab, newline,
vertical tab, form feed, carriage return). -/
def isSpaceChar (n : Nat) : Bool :=
  n == 32 || n == 9 || n == 10 || n == 11 || n == 12 || n == 13

/-- Embedding of the Python strip method: drop whitespace at both ends. -/
def strip (q : List Nat) : List Nat :=
  ((q.dropWhile isSpaceChar).reverse.dropWhile isSpaceChar).reverse

/-- A cell value of a mock record: a string or an integer. -/
inductive Value where
  | s (v : List Nat)
  | i (v : Int)
deriving DecidableEq

/-- A mock record: a mapping from column name to value, in source order. -/
abbrev Record := List (List Nat × Value)

/-- The two sales records of `mock_responses["sales"]`. -/
def sales_rows : List Record :=
  [ [ (str ("date"), Value.s (str ("2025-03-01"))),
      (str ("amount"), Value.i 1000),
      (str ("region"), Value.s (str ("North"))),
      (str ("product"), Value.s (str ("Widget"))) ],
    [ (str ("date"), Value.s (str ("2025-03-02"))),
      (str ("amount"), Value.i 1500),
      (str ("region"), Value.s (str ("South"))),
      (str ("product"), Value.s (str ("Gadget"))) ] ]

/-- The two customer records of `mock_responses["customers"]`. -/
def customers_rows : List Record :=
  [ [ (str ("id"), Value.i 1),
      (str ("name"), Value.s (str ("John Doe"))),
      (str ("email"), Value.s (str ("john@example.com"))),
      (str ("signup_date"), Value.s (str ("2025-01-01"))) ],
    [ (str ("id"), Value.i 2),
      (str ("name"), Value.s (str ("Jane Smith"))),
      (str ("email"), Value.s (str ("jane@example.com"))),
      (str ("signup_date"), Value.s (str ("2025-02-01"))) ] ]

/-- The in-memory mock database `mock_db`: table name to column list. -/
def mock_db (table : List Nat) : Option (List (List Nat)) :=
  if table = str ("sales") then
    some [str ("date"), str ("amount"), str ("region"), str ("product")]
  else if table = str ("customers") then
    some [str ("id"), str ("name"), str ("email"), str ("signup_date")]
  else none

/-- The mock data mapping `mock_responses`: table name to record list. -/
def mock_responses (table : List Nat) : Option (List Record) :=
  if table = str ("sales") then some sales_rows
  else if table = str ("customers") then some customers_rows
  else none

/-- Embedding of `parse_query_to_sql`: lower-case the input, then ordered
keyword containment checks, with the fixed default as the final return. -/
def parse_query_to_sql (query : List Nat) : List Nat × List Nat :=
  let q := lower query
  if containsSub (str ("sales")) q then
    if containsSub (str ("by region")) q then
      (str ("SELECT region, SUM(amount) FROM sales GROUP BY region"), str ("sales"))
    else if containsSub (str ("total")) q then
      (str ("SELECT SUM(amount) FROM sales"), str ("sales"))
    else if containsSub (str ("by product")) q then
      (str ("SELECT product, SUM(amount) FROM sales GROUP BY product"), str ("sales"))
    else
      (str ("SELECT * FROM sales"), str ("sales"))
  else if containsSub (str ("customer")) q || containsSub (str ("customers")) q then
    if containsSub (str ("count")) q then
      (str ("SELECT COUNT(*) FROM customers"), str ("customers"))
    else if containsSub (str ("new")) q || containsSub (str ("recent")) q then
      (str ("SELECT * FROM customers ORDER BY signup_date DESC"), str ("customers"))
    else
      (str ("SELECT * FROM sales"), str ("sales"))
  else
    (str ("SELECT * FROM sales"), str ("sales"))

/-- Response model of the query endpoint. -/
structure QueryResponse where
  original_query : List Nat
  translated_sql : List Nat
  results : List Record
deriving DecidableEq

/-- Embedding of `process_query` (auth already passed): classify, then
look up the mock data with the empty-list default of `dict.get`. -/
def process_query (query : List Nat) : QueryResponse :=
  let p := parse_query_to_sql query
  { original_query := query
    translated_sql := p.1
    results := (mock_responses p.2).getD [] }

/-- The breakdown dictionary built by the explain endpoint. -/
structure Breakdown where
  detected_table : List Nat
  query_type : List Nat
  columns : List (List Nat)
deriving DecidableEq

/-- Response model of the explain endpoint. -/
structure ExplainResponse where
  original_query : List Nat
  breakdown : Breakdown
  translated_sql : List Nat
deriving DecidableEq

/-- Embedding of `explain_query` (auth already passed). The `Option` is
the exception path of the Python lookup `mock_db[table]`; the query type
is "aggregation" exactly when the statement contains the substring SUM. -/
def explain_query (query : List Nat) : Option ExplainResponse :=
  let p := parse_query_to_sql query
  match mock_db p.2 with
  | none => none
  | some cols =>
      some { original_query := query
             breakdown :=
               { detected_table := p.2
                 query_type :=
                   if containsSub (str ("SUM")) p.1 then str ("aggregation")
                   else str ("selection")
                 columns := cols }
             translated_sql := p.1 }

/-- Response model of the validate endpoint. -/
structure ValidateResponse where
  query : List Nat
  is_valid : Bool
  message : List Nat
deriving DecidableEq

/-- Embedding of `validate_query` (auth already passed): lower-case, test
membership of each `mock_db` key (sales, customers) as a substring,
report emptiness first, then the keyword test. -/
def validate_query (query : List Nat) : ValidateResponse :=
  let q := lower query
  let has_valid_table :=
    containsSub (str ("sales")) q || containsSub (str ("customers")) q
  if (strip q).isEmpty then
    { query := query, is_valid := false, message := str ("Query cannot be empty") }
  else if !has_valid_table then
    { query := query, is_valid := false,
      message := str ("No valid table reference found") }
  else
    { query := query, is_valid := true, message := str ("Query appears valid") }

/-- Embedding of `verify_credentials`: exact string equality against the
static pair, a mismatch raising HTTP 401. -/
def verify_credentials (username password : List Nat) : Except Nat Bool :=
  if username ≠ str ("admin") ∨ password ≠ str ("secret123") then
    Except.error 401
  else Except.ok true

/-- Embedding of the health endpoint: a fixed status object, no auth. -/
def health_check : List (List Nat × List Nat) :=
  [(str ("status"), str ("healthy"))]

/-- The query endpoint including its auth dependency. -/
def query_endpoint (username password query : List Nat) :
    Except Nat QueryResponse :=
  match verify_credentials username password with
  | Except.error code => Except.error code
  | Except.ok _ => Except.ok (process_query query)

/-- The explain endpoint including its auth dependency. -/
def explain_endpoint (username password query : List Nat) :
    Except Nat (Option ExplainResponse) :=
  match verify_credentials username password with
  | Except.error code => Except.error code
  | Except.ok _ => Except.ok (explain_query query)

/-- The validate endpoint including its auth dependency. -/
def validate_endpoint (username password query : List Nat) :
    Except Nat ValidateResponse :=
  match verify_credentials username password with
  | Except.error code => Except.error code
  | Except.ok _ => Except.ok (validate_query query)

/-- The process-wide static state the module defines: the table
descriptors and the mock datasets. -/
structure EngineState where
  db : List Nat → Option (List (List Nat))
  responses : List Nat → Option (List Record)

/-- State-threaded embedding of `parse_query_to_sql`: the body of the
source function reads and writes none of the module-level dictionaries,
so the state passes through untouched. -/
def parse_query_to_sql_st (st : EngineState) (query : List Nat) :
    (List Nat × List Nat) × EngineState :=
  (parse_query_to_sql query, st)

/-- A prefix of a prefix of a list is a prefix of that list. -/
theorem isPrefixList_trans : ∀ a b c : List Nat,
    isPrefixList a b = true → isPrefixList b c = true → isPrefixList a c = true
  | [], _, _, _, _ => rfl
  | _ :: _, [], _, h1, _ => by simp [isPrefixList] at h1
  | _ :: _, _ :: _, [], _, h2 => by simp [isPrefixList] at h2
  | x :: xs, y :: ys, z :: zs, h1, h2 => by
      simp only [isPrefixList, Bool.and_eq_true, beq_iff_eq] at h1 h2 ⊢
      exact ⟨h1.1.trans h2.1, isPrefixList_trans xs ys zs h1.2 h2.2⟩

/-- Any list containing a needle also contains every prefix of it. -/
theorem containsSub_mono (a b : List Nat) (hab : isPrefixList a b = true) :
    ∀ l : List Nat, containsSub b l = true → containsSub a l = true
  | [], h => by
      cases b with
      | nil =>
          cases a with
          | nil => rfl
          | cons x xs => simp [isPrefixList] at hab
      | cons y ys => simp [containsSub] at h
  | c :: cs, h => by
      simp only [containsSub, Bool.or_eq_true] at h ⊢
      rcases h with h | h
      · exact Or.inl (isPrefixList_trans a b (c :: cs) hab h)
      · exact Or.inr (containsSub_mono a b hab cs h)

/-- ASCII case folding is idempotent. -/
theorem lowerChar_lowerChar (n : Nat) : lowerChar (lowerChar n) = lowerChar n := by
  simp only [lowerChar]
  split_ifs <;> omega

/-- Lower-casing is idempotent. -/
theorem lower_lower (s : List Nat) : lower (lower s) = lower s := by
  induction s with
  | nil => rfl
  | cons c cs ih =>
      simp only [lower, List.map_cons, List.map_map] at ih ⊢
      exact List.cons_eq_cons.2 ⟨lowerChar_lowerChar c, ih⟩

/-- The classifier's table component is always sales or customers. -/
theorem parse_table_cases (query : List Nat) :
    (parse_query_to_sql query).2 = str ("sales") ∨
    (parse_query_to_sql query).2 = str ("customers") := by
  simp only [parse_query_to_sql]
  split_ifs <;> simp

/-- Case folding fixes whitespace code points. -/
theorem lowerChar_space (n : Nat) (h : isSpaceChar n = true) : lowerChar n = n := by
  simp only [isSpaceChar, Bool.or_eq_true, beq_iff_eq] at h
  simp only [lowerChar]
  split_ifs with hif
  · omega
  · rfl

/-- Lower-casing fixes all-whitespace input. -/
theorem lower_space (q : List Nat) (h : q.all isSpaceChar = true) : lower q = q := by
  induction q with
  | nil => rfl
  | cons c cs ih =>
      simp only [List.all_cons, Bool.and_eq_true] at h
      simp only [lower, List.map_cons]
      rw [lowerChar_space c h.1]
      exact List.cons_eq_cons.2 ⟨rfl, ih h.2⟩

/-- Dropping whitespace from an all-whitespace list empties it. -/
theorem dropWhile_space (q : List Nat) (h : q.all isSpaceChar = true) :
    q.dropWhile isSpaceChar = [] := by
  induction q with
  | nil => rfl
  | cons c cs ih =>
      simp only [List.all_cons, Bool.and_eq_true] at h
      rw [List.dropWhile_cons, if_pos h.1]
      exact ih h.2

/-- Stripping an all-whitespace list yields the empty list. -/
theorem strip_space (q : List Nat) (h : q.all isSpaceChar = true) :
    strip q = [] := by
  simp only [strip]
  rw [dropWhile_space q h]
  rfl

/-- Evaluation of the table-descriptor lookup at the sales key. -/
theorem mock_db_sales : mock_db (str ("sales")) =
    some [str ("date"), str ("amount"), str ("region"), str ("product")] := by decide

/-- Evaluation of the table-descriptor lookup at the customers key. -/
theorem mock_db_customers : mock_db (str ("customers")) =
    some [str ("id"), str ("name"), str ("email"), str ("signup_date")] := by decide

/-- Evaluation of the mock-data lookup at the sales key. -/
theorem mock_responses_sales : mock_responses (str ("sales")) = some sales_rows := by
  decide

/-- Evaluation of the mock-data lookup at the customers key. -/
theorem mock_responses_customers :
    mock_responses (str ("customers")) = some customers_rows := by decide

/-- C1: for every input string (the empty string included),
`parse_query_to_sql` returns a pair whose statement is non-empty and whose
table is one of the two known tables sales and customers, hence a key
present in `mock_responses` and in `mock_db`. -/
theorem parse_query_to_sql_total (query : List Nat) :
    (parse_query_to_sql query).1 ≠ [] ∧
    ((parse_query_to_sql query).2 = str ("sales") ∨
      (parse_query_to_sql query).2 = str ("customers")) ∧
    (mock_responses (parse_query_to_sql query).2).isSome = true ∧
    (mock_db (parse_query_to_sql query).2).isSome = true := by
  refine ⟨?_, parse_table_cases query, ?_, ?_⟩
  · simp only [parse_query_to_sql]
    split_ifs <;> decide
  · rcases parse_table_cases query with h | h <;> rw [h] <;> decide
  · rcases parse_table_cases query with h | h <;> rw [h] <;> decide

/-- C2: whenever no branch matches, or a matched branch produces no
statement — the lower-cased input contains neither sales nor customer;
or it contains sales but none of by region, total, by product; or it
contains customer but not sales and none of count, new, recent —
`parse_query_to_sql` returns the fixed default statement against the
sales table. -/
theorem parse_query_to_sql_default (query : List Nat)
    (h : (containsSub (str ("sales")) (lower query) = false ∧
          containsSub (str ("customer")) (lower query) = false) ∨
         (containsSub (str ("sales")) (lower query) = true ∧
          containsSub (str ("by region")) (lower query) = false ∧
          containsSub (str ("total")) (lower query) = false ∧
          containsSub (str ("by product")) (lower query) = false) ∨
         (containsSub (str ("customer")) (lower query) = true ∧
          containsSub (str ("sales")) (lower query) = false ∧
          containsSub (str ("count")) (lower query) = false ∧
          containsSub (str ("new")) (lower query) = false ∧
          containsSub (str ("recent")) (lower query) = false)) :
    parse_query_to_sql query = (str ("SELECT * FROM sales"), str ("sales")) := by
  rcases h with ⟨hs, hc⟩ | ⟨hs, h1, h2, h3⟩ | ⟨hc, hs, h1, h2, h3⟩
  · have hcs : containsSub (str ("customers")) (lower query) = false := by
      cases hcs0 : containsSub (str ("customers")) (lower query) with
      | false => rfl
      | true =>
          have := containsSub_mono (str ("customer")) (str ("customers"))
            (by decide) (lower query) hcs0
          rw [this] at hc
          exact absurd hc (by simp)
    simp only [parse_query_to_sql, hs, hc, hcs, Bool.or_self, Bool.false_eq_true,
      if_false]
  · simp only [parse_query_to_sql, hs, h1, h2, h3, if_true, Bool.false_eq_true,
      if_false]
  · simp only [parse_query_to_sql, hs, hc, h1, h2, h3, Bool.true_or, if_true,
      Bool.false_eq_true, Bool.false_or, if_false]

/-- Witness for C2 at the concrete input hello. -/
theorem parse_query_to_sql_default_witness :
    parse_query_to_sql (str ("hello")) =
      (str ("SELECT * FROM sales"), str ("sales")) :=
  parse_query_to_sql_default (str ("hello")) (Or.inl ⟨by decide, by decide⟩)

/-- C3 counterexample: for the input customer count the generated
statement is SELECT COUNT(*) FROM customers and the explain breakdown's
query type is selection, not aggregation, because the code tests only for
the substring SUM. -/
theorem explain_customer_count_selection :
    (explain_query (str ("customer count"))).map
        (fun r => r.breakdown.query_type) = some (str ("selection")) ∧
    parse_query_to_sql (str ("customer count")) =
      (str ("SELECT COUNT(*) FROM customers"), str ("customers")) ∧
    str ("selection") ≠ str ("aggregation") := by
  refine ⟨by decide, by decide, by decide⟩

/-- C3 amended: for every input the explain breakdown's query type is
aggregation exactly when the generated statement contains the substring
SUM, and selection otherwise; COUNT statements are labelled selection. -/
theorem explain_query_type_sum (query : List Nat) :
    (explain_query query).map (fun r => r.breakdown.query_type) =
      some (if containsSub (str ("SUM")) (parse_query_to_sql query).1
            then str ("aggregation") else str ("selection")) := by
  rcases parse_table_cases query with h | h <;>
    simp only [explain_query, h, mock_db_sales, mock_db_customers, Option.map_some']

/-- C4 counterexample: the input customer count is neither empty nor
whitespace-only and its lower-cased form contains customer, yet
`validate_query` reports it invalid, because validation tests only the
exact table names sales and customers as substrings. -/
theorem validate_customer_count_invalid :
    containsSub (str ("customer")) (lower (str ("customer count"))) = true ∧
    (strip (lower (str ("customer count")))).isEmpty = false ∧
    (validate_query (str ("customer count"))).is_valid = false ∧
    (validate_query (str ("customer count"))).message =
      str ("No valid table reference found") := by decide

/-- C4 amended: `validate_query` reports an input valid exactly when the
lower-cased input is not whitespace-only and contains sales or customers
as a substring; the bare keyword customer is not recognized. -/
theorem validate_query_is_valid_iff (query : List Nat) :
    (validate_query query).is_valid =
      (!(strip (lower query)).isEmpty &&
        (containsSub (str ("sales")) (lower query) ||
         containsSub (str ("customers")) (lower query))) := by
  simp only [validate_query]
  split_ifs with h1 h2
  · rw [h1]
    rfl
  · have h2' : (containsSub (str ("sales")) (lower query) ||
        containsSub (str ("customers")) (lower query)) = false := by
      simpa using h2
    rw [h2', Bool.and_false]
  · have h1' : (strip (lower query)).isEmpty = false := by
      simpa using h1
    have h2' : (containsSub (str ("sales")) (lower query) ||
        containsSub (str ("customers")) (lower query)) = true := by
      cases hab : (containsSub (str ("sales")) (lower query) ||
          containsSub (str ("customers")) (lower query)) with
      | true => rfl
      | false =>
          refine absurd ?_ h2
          rw [hab]
          rfl
    rw [h1', h2']
    rfl

/-- C5: every input whose lower-cased form contains both sales and
by region classifies to the region-aggregation statement with table
sales, regardless of further keywords. -/
theorem parse_query_to_sql_by_region (query : List Nat)
    (h1 : containsSub (str ("sales")) (lower query) = true)
    (h2 : containsSub (str ("by region")) (lower query) = true) :
    parse_query_to_sql query =
      (str ("SELECT region, SUM(amount) FROM sales GROUP BY region"),
        str ("sales")) := by
  simp only [parse_query_to_sql, h1, h2, if_true]

/-- Witness for C5 at a mixed-case concrete input. -/
theorem parse_query_to_sql_by_region_witness :
    parse_query_to_sql (str ("Total SALES By Region")) =
      (str ("SELECT region, SUM(amount) FROM sales GROUP BY region"),
        str ("sales")) :=
  parse_query_to_sql_by_region (str ("Total SALES By Region"))
    (by decide) (by decide)

/-- C6: validation of the empty string and of any whitespace-only input
is invalid with the cannot-be-empty message (emptiness takes priority),
validation of xyz abc is invalid with the no-valid-table message, and
validation of sales report is valid. -/
theorem validate_query_examples :
    validate_query (str ("")) =
      { query := str (""), is_valid := false,
        message := str ("Query cannot be empty") } ∧
    (∀ q : List Nat, q.all isSpaceChar = true →
      validate_query q =
        { query := q, is_valid := false,
          message := str ("Query cannot be empty") }) ∧
    validate_query (str ("xyz abc")) =
      { query := str ("xyz abc"), is_valid := false,
        message := str ("No valid table reference found") } ∧
    (validate_query (str ("sales report"))).is_valid = true := by
  refine ⟨by decide, ?_, by decide, by decide⟩
  intro q hq
  have hall : (lower q).all isSpaceChar = true := by rw [lower_space q hq]; exact hq
  have hnil : strip (lower q) = [] := strip_space (lower q) hall
  simp only [validate_query, hnil, List.isEmpty_nil, if_true]

/-- Witness for C6 at a concrete whitespace-only input. -/
theorem validate_query_examples_witness :
    validate_query (str ("  ")) =
      { query := str ("  "), is_valid := false,
        message := str ("Query cannot be empty") } :=
  validate_query_examples.2.1 (str ("  ")) (by decide)

/-- C7: classification is deterministic and side-effect free: threading
the process-wide state through leaves it unchanged, and a second
classification of the same input under the resulting state returns the
identical pair. -/
theorem parse_query_to_sql_pure (st : EngineState) (query : List Nat) :
    (parse_query_to_sql_st st query).2 = st ∧
    (parse_query_to_sql_st st query).1 =
      (parse_query_to_sql_st ((parse_query_to_sql_st st query).2) query).1 :=
  ⟨rfl, rfl⟩

/-- C8: classification is case-insensitive: any input classifies exactly
as its lower-cased form does, because the input is lower-cased before
matching and lower-casing is idempotent. -/
theorem parse_query_to_sql_case_insensitive (query : List Nat) :
    parse_query_to_sql query = parse_query_to_sql (lower query) := by
  simp only [parse_query_to_sql, lower_lower]

/-- C9: `verify_credentials` succeeds exactly on the pair admin and
secret123; any other pair yields a 401 failure on the three protected
endpoints, while the health endpoint answers healthy with no
credentials. -/
theorem verify_credentials_gate :
    (∀ username password : List Nat,
      verify_credentials username password = Except.ok true ↔
        username = str ("admin") ∧ password = str ("secret123")) ∧
    (∀ username password query : List Nat,
      ¬(username = str ("admin") ∧ password = str ("secret123")) →
        verify_credentials username password = Except.error 401 ∧
        query_endpoint username password query = Except.error 401 ∧
        explain_endpoint username password query = Except.error 401 ∧
        validate_endpoint username password query = Except.error 401) ∧
    health_check = [(str ("status"), str ("healthy"))] := by
  refine ⟨?_, ?_, rfl⟩
  · intro u p
    by_cases hu : u = str ("admin") ∧ p = str ("secret123")
    · rw [hu.1, hu.2]
      simp [verify_credentials]
    · have hcond : u ≠ str ("admin") ∨ p ≠ str ("secret123") := by tauto
      rw [verify_credentials, if_pos hcond]
      simp
      exact fun h1 h2 => hu ⟨h1, h2⟩
  · intro u p q h
    have hcond : u ≠ str ("admin") ∨ p ≠ str ("secret123") := by tauto
    have hv : verify_credentials u p = Except.error 401 := by
      rw [verify_credentials, if_pos hcond]
    exact ⟨hv, by simp [query_endpoint, hv], by simp [explain_endpoint, hv],
      by simp [validate_endpoint, hv]⟩

/-- Witness for C9 at a concrete wrong password. -/
theorem verify_credentials_gate_witness :
    query_endpoint (str ("admin")) (str ("wrong")) (str ("sales")) =
      Except.error 401 :=
  (verify_credentials_gate.2.1 (str ("admin")) (str ("wrong")) (str ("sales"))
    (by decide)).2.1

/-- C10: on every query the classifier's table is a key of
`mock_responses`, so the empty-list default of the lookup is unreachable:
the results field is the matched table's complete two-record mock dataset
and is never empty. -/
theorem process_query_results_full (query : List Nat) :
    (mock_responses (parse_query_to_sql query).2).isSome = true ∧
    (process_query query).results =
      (mock_responses (parse_query_to_sql query).2).getD [] ∧
    (process_query query).results ≠ [] ∧
    (process_query query).results.length = 2 := by
  have hres : (process_query query).results =
      (mock_responses (parse_query_to_sql query).2).getD [] := rfl
  rcases parse_table_cases query with h | h <;> rw [hres, h] <;> decide
